import Mathlib

/-!
Verification of the Ledger Store (`GestorDatos`) of `src/www/js/app.js`
(contabilidad app) against its design specification.

Modelling conventions (shallow embedding):
* JavaScript numbers (`cantidad`, the saldo fields) are modelled as exact
  rationals `ℚ`.  The program only adds amounts and applies
  `Math.round(x * 100) / 100`; the claims under study concern the order of
  operations and the rounding step, not IEEE-754 error, so the idealisation
  is faithful to what is claimed.
* `Math.round` in JavaScript returns the nearest integer, ties toward `+∞`;
  on exact values this is `⌊x + 1/2⌋`.
* `JSON.parse` / `JSON.stringify` are browser built-ins (not part of the
  source).  Serialized text is modelled by the inductive `Texto`:
  `Texto.json v` is a text that `JSON.parse` turns into the value `v`
  (and `JSON.stringify v` produces such a text; for the record types used
  here the round-trip is exact), while `Texto.malformed s` is a text on
  which `JSON.parse` throws.  A parsed JavaScript value is modelled by
  `JsonDoc`: either a well-formed ledger object (`JsonDoc.datos`) or any
  other JSON value (`JsonDoc.otro`, e.g. `null`, a number, or an object
  without a `movimientos` array) — exactly the values on which
  `this.datos.movimientos.filter` raises a `TypeError`.
* `localStorage` under the single key `contabilidad_datos` is modelled as
  an `Option Texto` (`none` = key absent).
* Methods that mutate `this.datos` are modelled as functions returning the
  new state; methods that also call `localStorage.setItem` additionally
  return the persisted text.
-/

/-- One movement record, as stored in `datos.movimientos`:
`{id, fecha, asunto, tipo, cantidad}`. -/
structure Movimiento where
  id : String
  fecha : String
  asunto : String
  tipo : String
  cantidad : ℚ
deriving DecidableEq, Repr

/-- The derived balances record `datos.saldos`: `{banco, cash, total}`. -/
structure Saldos where
  banco : ℚ
  cash : ℚ
  total : ℚ
deriving DecidableEq, Repr

/-- The whole in-memory ledger `this.datos` in its well-formed shape:
`{ movimientos: [...], saldos: {...} }`. -/
structure Datos where
  movimientos : List Movimiento
  saldos : Saldos
deriving DecidableEq, Repr

/-- The empty ledger produced by `cargarDatos` when nothing is persisted:
`{ movimientos: [], saldos: { banco: 0, cash: 0, total: 0 } }`. -/
def vacio : Datos := { movimientos := [], saldos := { banco := 0, cash := 0, total := 0 } }

/-- `Math.round (q * 100) / 100`: rounding to two decimal places, ties
toward `+∞` (JavaScript `Math.round` semantics on exact values). -/
def round2 (q : ℚ) : ℚ := ((q * 100 + 1 / 2).floor : ℚ) / 100

/-- The bucket sum of `calcularSaldos`:
`movimientos.filter(m => m.tipo === t).reduce((sum, mov) => sum + mov.cantidad, 0)`. -/
def sumaTipo (ms : List Movimiento) (t : String) : ℚ :=
  (ms.filter (fun m => m.tipo = t)).foldl (fun sum mov => sum + mov.cantidad) 0

/-- The balances record computed by `calcularSaldos` from a movement list:
each bucket is rounded to 2 decimals, and `total` is rounded from the sum
of the two *raw* bucket sums. -/
def calcularSaldosLista (ms : List Movimiento) : Saldos :=
  { banco := round2 (sumaTipo ms "BANCO")
    cash := round2 (sumaTipo ms "CASH")
    total := round2 (sumaTipo ms "BANCO" + sumaTipo ms "CASH") }

/-- `calcularSaldos()` as a state transformer: it overwrites
`this.datos.saldos` with the balances recomputed from
`this.datos.movimientos` and returns nothing else. -/
def calcularSaldos (d : Datos) : Datos :=
  { d with saldos := calcularSaldosLista d.movimientos }

/-- Specification-side sum: the sum of `cantidad` over the movements of
kind `t` (used to check `calcularSaldosLista` against the spec wording). -/
def sumaSpec (ms : List Movimiento) (t : String) : ℚ :=
  ((ms.filter (fun m => m.tipo = t)).map (fun m => m.cantidad)).sum

theorem rat_floor_eq_intFloor (a : ℚ) : a.floor = ⌊a⌋ := by
  rw [Rat.floor_def', ← Rat.floor_def]

theorem round2_eq_of (q : ℚ) (z : ℤ) (h1 : (z : ℚ) ≤ q * 100 + 1 / 2)
    (h2 : q * 100 + 1 / 2 < (z : ℚ) + 1) : round2 q = (z : ℚ) / 100 := by
  have hz : (q * 100 + 1 / 2).floor = z := by
    rw [rat_floor_eq_intFloor]
    exact Int.floor_eq_iff.mpr ⟨h1, by linarith⟩
  rw [round2, hz]

theorem foldl_add_cantidad (ms : List Movimiento) (a : ℚ) :
    ms.foldl (fun sum mov => sum + mov.cantidad) a = a + (ms.map (fun m => m.cantidad)).sum := by
  induction ms generalizing a with
  | nil => simp
  | cons m rest ih => simp [List.foldl_cons, ih, add_assoc]

theorem sumaTipo_eq_sumaSpec (ms : List Movimiento) (t : String) :
    sumaTipo ms t = sumaSpec ms t := by
  simp [sumaTipo, sumaSpec, foldl_add_cantidad]

/-- The salary movement of the spec's worked example. -/
def ejemploSalario : Movimiento :=
  { id := "1", fecha := "2024-01-01", asunto := "Salary", tipo := "BANCO", cantidad := 1000 }

/-- The coffee movement of the spec's worked example. -/
def ejemploCafe : Movimiento :=
  { id := "2", fecha := "2024-01-02", asunto := "Coffee", tipo := "CASH", cantidad := -(7 / 2) }

/-- A parsed JavaScript value, as produced by `JSON.parse`:
either a well-formed ledger object (an object whose `movimientos` property
is an array of movement records), or any other JSON value (`null`, a
number, a string, an object without a `movimientos` array, ...) — on those
`this.datos.movimientos.filter` raises a `TypeError`. -/
inductive JsonDoc where
  | datos (d : Datos)
  | otro
deriving DecidableEq, Repr

/-- A serialized text.  `Texto.json v` parses to the value `v`;
`Texto.malformed s` makes `JSON.parse` throw a `SyntaxError`. -/
inductive Texto where
  | json (v : JsonDoc)
  | malformed (s : String)
deriving DecidableEq, Repr

/-- `JSON.stringify` on an arbitrary in-memory value: produces a text that
parses back to the same value (exact for the field types used here). -/
def stringifyJs (v : JsonDoc) : Texto := Texto.json v

/-- `JSON.stringify(this.datos)` on a well-formed ledger. -/
def stringifyDatos (d : Datos) : Texto := stringifyJs (JsonDoc.datos d)

/-- `guardarDatos()` on a well-formed ledger: first
`localStorage.setItem(..., JSON.stringify(this.datos))` persists the
*current* ledger, then `calcularSaldos()` refreshes the in-memory saldos,
and `this.datos` is returned.  Result: (new in-memory ledger, persisted
text — note the persisted saldos are the pre-refresh ones). -/
def guardarDatos (d : Datos) : Datos × Texto :=
  (calcularSaldos d, stringifyDatos d)

/-- A movement draft as passed to `agregarMovimiento` / `modificarMovimiento`
(the `{fecha, asunto, tipo, cantidad}` object built by `guardarMovimiento`);
`fecha = ""` models an absent/empty date, which is falsy in JavaScript. -/
structure Ficha where
  fecha : String
  asunto : String
  tipo : String
  cantidad : ℚ
deriving DecidableEq, Repr

/-- `agregarMovimiento(movimiento)`: sets `movimiento.id = Date.now().toString()`
(`now` is the clock value observed at the call), defaults `fecha` to the
current date `hoy` when it is falsy, pushes the movement and saves. -/
def agregarMovimiento (d : Datos) (now : Nat) (hoy : String) (f : Ficha) : Datos × Texto :=
  let mov : Movimiento :=
    { id := toString now
      fecha := if f.fecha = "" then hoy else f.fecha
      asunto := f.asunto
      tipo := f.tipo
      cantidad := f.cantidad }
  guardarDatos { d with movimientos := d.movimientos ++ [mov] }

/-- `eliminarMovimiento(id)`:
`this.datos.movimientos = this.datos.movimientos.filter(m => m.id !== id)`,
then save. -/
def eliminarMovimiento (d : Datos) (id : String) : Datos × Texto :=
  guardarDatos { d with movimientos := d.movimientos.filter (fun m => m.id ≠ id) }

/-- `modificarMovimiento(id, movimientoActualizado)`: finds the first index
whose movement has the given `id`; when found, overwrites the draft's `id`
with `id`, replaces the record at that index and saves; when not found
(`findIndex` returns `-1`), returns `this.datos` unchanged without saving. -/
def modificarMovimiento (d : Datos) (id : String) (f : Ficha) : Datos × Option Texto :=
  match d.movimientos.findIdx? (fun m => m.id = id) with
  | some i =>
      let nuevo : Movimiento :=
        { id := id, fecha := f.fecha, asunto := f.asunto, tipo := f.tipo, cantidad := f.cantidad }
      let r := guardarDatos { d with movimientos := d.movimientos.set i nuevo }
      (r.1, some r.2)
  | none => (d, none)

/-- The full store state: the in-memory `this.datos` (a `JsonDoc`, since a
corrupt import can leave a non-ledger value there) and the
`localStorage` blob under `contabilidad_datos` (`none` = absent). -/
structure Store where
  datos : JsonDoc
  storage : Option Texto
deriving DecidableEq, Repr

/-- `cargarDatos()`: returns the empty ledger when the storage key is
absent (falsy), otherwise `JSON.parse` of the blob — which *throws* to the
caller when the blob is malformed (`Except.error`). -/
def cargarDatos (stored : Option Texto) : Except Unit JsonDoc :=
  match stored with
  | none => Except.ok (JsonDoc.datos vacio)
  | some (Texto.json v) => Except.ok v
  | some (Texto.malformed _) => Except.error ()

/-- `importarDatos(jsonData)`: inside `try`, `this.datos = JSON.parse(jsonData)`
then `guardarDatos()`.
* malformed text: `JSON.parse` throws before any assignment — the catch
  returns `false` with the store untouched;
* text parsing to a well-formed ledger: assignment, persist, recompute —
  returns `true`;
* text parsing to any other JSON value: the assignment and
  `localStorage.setItem` both succeed, then `calcularSaldos` throws a
  `TypeError` on `this.datos.movimientos.filter` — the catch returns
  `false`, but memory and storage have already been overwritten. -/
def importarDatos (s : Store) (t : Texto) : Store × Bool :=
  match t with
  | Texto.malformed _ => (s, false)
  | Texto.json (JsonDoc.datos d) =>
      let r := guardarDatos d
      ({ datos := JsonDoc.datos r.1, storage := some r.2 }, true)
  | Texto.json JsonDoc.otro =>
      ({ datos := JsonDoc.otro, storage := some (stringifyJs JsonDoc.otro) }, false)

/-- `exportarDatos()`: `JSON.stringify(this.datos, null, 2)` (the
pretty-printing does not change what the text parses back to). -/
def exportarDatos (v : JsonDoc) : Texto := stringifyJs v

/-- The filter bounds read from the form by `aplicarFiltros`; `none`
models an empty input (falsy string — the corresponding `if` is skipped),
and the amount bounds carry the already-`parseFloat`ed number. -/
structure Filtros where
  fechaDesde : Option String
  fechaHasta : Option String
  cantidadMin : Option ℚ
  cantidadMax : Option ℚ
  tipo : Option String
deriving Repr

/-- The filtering pipeline of `aplicarFiltros`: one `filter` pass per
supplied bound, in source order, over a copy of the full movement list. -/
def aplicarFiltros (fl : Filtros) (ms : List Movimiento) : List Movimiento :=
  let m1 := match fl.fechaDesde with
    | some v => ms.filter (fun m => v ≤ m.fecha)
    | none => ms
  let m2 := match fl.fechaHasta with
    | some v => m1.filter (fun m => m.fecha ≤ v)
    | none => m1
  let m3 := match fl.cantidadMin with
    | some v => m2.filter (fun m => v ≤ m.cantidad)
    | none => m2
  let m4 := match fl.cantidadMax with
    | some v => m3.filter (fun m => m.cantidad ≤ v)
    | none => m3
  match fl.tipo with
  | some v => m4.filter (fun m => m.tipo = v)
  | none => m4

/-- The view handed to the renderer by `aplicarFiltros`:
`{ movimientos: movs, saldos: gestorDatos.datos.saldos }` — the filtered
list paired with the *stored, unfiltered* balances. -/
def vistaFiltrada (fl : Filtros) (d : Datos) : Datos :=
  { movimientos := aplicarFiltros fl d.movimientos, saldos := d.saldos }

/-- Specification-side filter predicate: a movement passes when it meets
every supplied bound (range bounds inclusive on both ends; an omitted
bound imposes no constraint). -/
def cumpleFiltros (fl : Filtros) (m : Movimiento) : Bool :=
  (match fl.fechaDesde with | some v => decide (v ≤ m.fecha) | none => true) &&
  (match fl.fechaHasta with | some v => decide (m.fecha ≤ v) | none => true) &&
  (match fl.cantidadMin with | some v => decide (v ≤ m.cantidad) | none => true) &&
  (match fl.cantidadMax with | some v => decide (m.cantidad ≤ v) | none => true) &&
  (match fl.tipo with | some v => decide (m.tipo = v) | none => true)

/-- One user-level mutation of the store within a session (`now` is the
value `Date.now()` yields at that call). -/
inductive Op where
  | agregar (now : Nat) (hoy : String) (f : Ficha)
  | eliminar (id : String)
  | modificar (id : String) (f : Ficha)
deriving Repr

/-- Run one operation on the in-memory ledger. -/
def aplicarOp (d : Datos) : Op → Datos
  | Op.agregar now hoy f => (agregarMovimiento d now hoy f).1
  | Op.eliminar id => (eliminarMovimiento d id).1
  | Op.modificar id f => (modificarMovimiento d id f).1

/-- Run a whole session's operation sequence. -/
def aplicarOps (d : Datos) (ops : List Op) : Datos :=
  ops.foldl aplicarOp d

/-- The ids currently in the ledger, in movement order. -/
def ids (d : Datos) : List String := d.movimientos.map (fun m => m.id)

/-- `safeOps d ops = true` when, along the execution of `ops` from `d`,
every `agregar` happens at a clock value whose string form is not already
an id in the ledger at that moment (in particular: no two additions within
the same millisecond, and no addition colliding with a pre-existing id). -/
def safeOps (d : Datos) : List Op → Bool
  | [] => true
  | Op.agregar now hoy f :: rest =>
      decide (toString now ∉ ids d) && safeOps (aplicarOp d (Op.agregar now hoy f)) rest
  | Op.eliminar id :: rest => safeOps (aplicarOp d (Op.eliminar id)) rest
  | Op.modificar id f :: rest => safeOps (aplicarOp d (Op.modificar id f)) rest

/-- The draft that `guardarMovimiento` builds for the salary example. -/
def fichaSalario : Ficha :=
  { fecha := "2024-01-01", asunto := "Salary", tipo := "BANCO", cantidad := 1000 }

/-- The draft that `guardarMovimiento` builds for the coffee example. -/
def fichaCafe : Ficha :=
  { fecha := "2024-01-02", asunto := "Coffee", tipo := "CASH", cantidad := -(7 / 2) }

/-- The ledger reached by adding the salary and coffee examples to the
empty ledger (clock values 1 and 2), with its consistent balances. -/
def ejemploDatos : Datos :=
  { movimientos := [ejemploSalario, ejemploCafe]
    saldos := { banco := 1000, cash := -(7 / 2), total := 1993 / 2 } }

/-- Two sub-cent movements, one per bucket: rounding the total from the
raw sums gives `0.01` while the rounded buckets are both `0`. -/
def subCentavos : List Movimiento :=
  [{ id := "1", fecha := "2024-01-01", asunto := "a", tipo := "BANCO", cantidad := 1 / 250 },
   { id := "2", fecha := "2024-01-01", asunto := "b", tipo := "CASH", cantidad := 1 / 250 }]

theorem saldos_lista_vacia : calcularSaldosLista [] = { banco := 0, cash := 0, total := 0 } := by
  have h0 : round2 0 = ((0 : ℤ) : ℚ) / 100 := round2_eq_of 0 0 (by norm_num) (by norm_num)
  simp [calcularSaldosLista, sumaTipo, h0]

theorem saldos_ejemplo :
    calcularSaldosLista [ejemploSalario, ejemploCafe] =
      { banco := 1000, cash := -(7 / 2), total := 1993 / 2 } := by
  have hb : sumaTipo [ejemploSalario, ejemploCafe] "BANCO" = 1000 := by
    show (0 : ℚ) + 1000 = 1000
    norm_num
  have hc : sumaTipo [ejemploSalario, ejemploCafe] "CASH" = -(7 / 2) := by
    show (0 : ℚ) + -(7 / 2) = -(7 / 2)
    norm_num
  have r1 : round2 1000 = ((100000 : ℤ) : ℚ) / 100 :=
    round2_eq_of 1000 100000 (by norm_num) (by norm_num)
  have r2 : round2 (-(7 / 2)) = ((-350 : ℤ) : ℚ) / 100 :=
    round2_eq_of (-(7 / 2)) (-350) (by norm_num) (by norm_num)
  have r3 : round2 (1000 + -(7 / 2)) = ((99650 : ℤ) : ℚ) / 100 :=
    round2_eq_of (1000 + -(7 / 2)) 99650 (by norm_num) (by norm_num)
  rw [calcularSaldosLista, hb, hc, r1, r2, r3]
  norm_num

theorem saldos_subcent :
    calcularSaldosLista subCentavos = { banco := 0, cash := 0, total := 1 / 100 } := by
  have hb : sumaTipo subCentavos "BANCO" = 1 / 250 := by
    show (0 : ℚ) + 1 / 250 = 1 / 250
    norm_num
  have hc : sumaTipo subCentavos "CASH" = 1 / 250 := by
    show (0 : ℚ) + 1 / 250 = 1 / 250
    norm_num
  have r1 : round2 (1 / 250) = ((0 : ℤ) : ℚ) / 100 :=
    round2_eq_of (1 / 250) 0 (by norm_num) (by norm_num)
  have r3 : round2 (1 / 250 + 1 / 250) = ((1 : ℤ) : ℚ) / 100 :=
    round2_eq_of (1 / 250 + 1 / 250) 1 (by norm_num) (by norm_num)
  rw [calcularSaldosLista, hb, hc, r1, r3]
  norm_num

/-- Claim C3: `calcularSaldos` computes `banco` as the 2-decimal rounding
of the sum of `cantidad` over the `BANCO` movements, `cash` likewise over
`CASH`, and `total` as the 2-decimal rounding of the sum of the two raw
(unrounded) bucket sums — not the sum of the rounded buckets (on
`subCentavos` the two differ); adding the Salary and Coffee examples to
the empty ledger yields balances `(1000, -3.50, 996.50)`. -/
theorem c3_calcular_saldos :
    (∀ ms : List Movimiento,
       calcularSaldosLista ms =
         { banco := round2 (sumaSpec ms "BANCO")
           cash := round2 (sumaSpec ms "CASH")
           total := round2 (sumaSpec ms "BANCO" + sumaSpec ms "CASH") }) ∧
    (agregarMovimiento (agregarMovimiento vacio 1 "2024-01-01" fichaSalario).1
        2 "2024-01-02" fichaCafe).1.saldos =
      { banco := 1000, cash := -(7 / 2), total := 1993 / 2 } ∧
    calcularSaldosLista subCentavos = { banco := 0, cash := 0, total := 1 / 100 } ∧
    (calcularSaldosLista subCentavos).total ≠
      (calcularSaldosLista subCentavos).banco + (calcularSaldosLista subCentavos).cash := by
  refine ⟨fun ms => ?_, ?_, saldos_subcent, ?_⟩
  · simp [calcularSaldosLista, sumaTipo_eq_sumaSpec]
  · have hm : (agregarMovimiento (agregarMovimiento vacio 1 "2024-01-01" fichaSalario).1
        2 "2024-01-02" fichaCafe).1.saldos =
        calcularSaldosLista [ejemploSalario, ejemploCafe] := rfl
    rw [hm, saldos_ejemplo]
  · rw [saldos_subcent]
    norm_num

/-- A ledger whose stored balances disagree with its (empty) movement
list: running `calcularSaldos` on it changes the ledger. -/
def desajustado : Datos :=
  { movimientos := [], saldos := { banco := 5, cash := 5, total := 5 } }

/-- Claim C7, counterexample: `calcularSaldos` is not side-effect free —
it overwrites `this.datos.saldos`, so on a ledger whose stored balances
are not the recomputed ones the stored Ledger changes. -/
theorem c7_counterexample : calcularSaldos desajustado ≠ desajustado := by
  intro h
  have hs : (calcularSaldos desajustado).saldos.banco = desajustado.saldos.banco := by rw [h]
  have hb : (calcularSaldos desajustado).saldos.banco = 0 := by
    show (calcularSaldosLista []).banco = 0
    rw [saldos_lista_vacia]
  rw [hb] at hs
  have : desajustado.saldos.banco = 5 := rfl
  rw [this] at hs
  norm_num at hs

/-- Claim C7, amended: `calcularSaldos` is a deterministic function of the
movement list and is idempotent (a second call with no intervening
mutation changes nothing), and it never touches the movement list or the
persisted blob; but rather than returning the balances it writes them into
the in-memory ledger's `saldos` field. -/
theorem c7_amended (d : Datos) :
    calcularSaldos (calcularSaldos d) = calcularSaldos d ∧
    (calcularSaldos d).movimientos = d.movimientos ∧
    (calcularSaldos d).saldos = calcularSaldosLista d.movimientos := by
  refine ⟨?_, rfl, rfl⟩
  simp [calcularSaldos]

/-- Claim C2, counterexample: on a present-but-malformed blob,
`cargarDatos` does not return the empty Ledger — the `JSON.parse`
exception propagates to the caller. -/
theorem c2_counterexample :
    cargarDatos (some (Texto.malformed "xyz")) = Except.error () ∧
    cargarDatos (some (Texto.malformed "xyz")) ≠ Except.ok (JsonDoc.datos vacio) := by
  exact ⟨rfl, by simp [cargarDatos]⟩

/-- Claim C2, amended: `cargarDatos` returns the empty Ledger when the
blob is absent and the parsed value when the blob parses; but when the
blob is present and unparsable it raises (the `JSON.parse` exception
reaches the caller) instead of degrading to the empty Ledger. -/
theorem c2_amended :
    cargarDatos none = Except.ok (JsonDoc.datos vacio) ∧
    (∀ v : JsonDoc, cargarDatos (some (Texto.json v)) = Except.ok v) ∧
    (∀ s : String, cargarDatos (some (Texto.malformed s)) = Except.error ()) :=
  ⟨rfl, fun _ => rfl, fun _ => rfl⟩

/-- A store holding the worked-example ledger in memory and in storage. -/
def almacenEjemplo : Store :=
  { datos := JsonDoc.datos ejemploDatos, storage := some (stringifyDatos ejemploDatos) }

/-- Claim C1, counterexample: importing the text `"null"` (valid JSON, not
a ledger object) makes `importarDatos` return failure, yet the store is
*not* what it was before the call: `this.datos = JSON.parse("null")` and
`localStorage.setItem` both run before `calcularSaldos` throws inside the
`try`, so memory and persisted storage are overwritten. -/
theorem c1_counterexample :
    (importarDatos almacenEjemplo (Texto.json JsonDoc.otro)).2 = false ∧
    (importarDatos almacenEjemplo (Texto.json JsonDoc.otro)).1 ≠ almacenEjemplo := by
  exact ⟨rfl, by decide⟩

/-- Claim C1, amended: when `JSON.parse` itself rejects the text,
`importarDatos` returns failure and leaves memory and storage exactly as
they were; when the text parses to a well-formed ledger, the whole Ledger
is replaced (balances recomputed in memory) and persisted with success;
but when the text parses to a non-ledger JSON value the call returns
failure while memory and storage have already been overwritten with the
parsed value. -/
theorem c1_amended (s : Store) (str : String) (d : Datos) :
    importarDatos s (Texto.malformed str) = (s, false) ∧
    importarDatos s (Texto.json (JsonDoc.datos d)) =
      ({ datos := JsonDoc.datos (calcularSaldos d), storage := some (stringifyDatos d) }, true) ∧
    importarDatos s (Texto.json JsonDoc.otro) =
      ({ datos := JsonDoc.otro, storage := some (stringifyJs JsonDoc.otro) }, false) :=
  ⟨rfl, rfl, rfl⟩

theorem set_eq_self_of_getElem? {α : Type} (l : List α) (i : Nat) (a : α)
    (h : l[i]? = some a) : l.set i a = l := by
  induction l generalizing i with
  | nil => simp at h
  | cons x xs ih =>
      cases i with
      | zero =>
          simp only [List.getElem?_cons_zero, Option.some.injEq] at h
          simp [h]
      | succ n =>
          simp only [List.getElem?_cons_succ] at h
          simp [List.set_cons_succ, ih n h]

theorem nodup_append_singleton {α : Type} (l : List α) (a : α)
    (hl : l.Nodup) (ha : a ∉ l) : (l ++ [a]).Nodup := by
  rw [List.nodup_append]
  refine ⟨hl, List.nodup_singleton a, ?_⟩
  intro x hx hxa
  rw [List.mem_singleton] at hxa
  subst hxa
  exact ha hx

/-- `agregarMovimiento` preserves distinctness of ids when the assigned
clock string is not already an id. -/
theorem nodup_ids_agregar (d : Datos) (now : Nat) (hoy : String) (f : Ficha)
    (hd : (ids d).Nodup) (hnew : toString now ∉ ids d) :
    (ids (aplicarOp d (Op.agregar now hoy f))).Nodup := by
  have heq : ids (aplicarOp d (Op.agregar now hoy f)) = ids d ++ [toString now] := by
    simp [aplicarOp, agregarMovimiento, guardarDatos, calcularSaldos, ids]
  rw [heq]
  exact nodup_append_singleton _ _ hd hnew

/-- `eliminarMovimiento` preserves distinctness of ids. -/
theorem nodup_ids_eliminar (d : Datos) (id : String) (hd : (ids d).Nodup) :
    (ids (aplicarOp d (Op.eliminar id))).Nodup := by
  have heq : ids (aplicarOp d (Op.eliminar id)) =
      (d.movimientos.filter (fun m => m.id ≠ id)).map (fun m => m.id) := rfl
  rw [heq]
  exact hd.sublist ((List.filter_sublist d.movimientos).map (fun m => m.id))

/-- `modificarMovimiento` preserves distinctness of ids: the replacement
record carries the id of the record it replaces. -/
theorem nodup_ids_modificar (d : Datos) (id : String) (f : Ficha)
    (hd : (ids d).Nodup) : (ids (aplicarOp d (Op.modificar id f))).Nodup := by
  cases hfind : d.movimientos.findIdx? (fun m => m.id = id) with
  | none =>
      have heq : aplicarOp d (Op.modificar id f) = d := by
        simp [aplicarOp, modificarMovimiento, hfind]
      rw [heq]; exact hd
  | some i =>
      obtain ⟨hlt, hp, -⟩ := List.findIdx?_eq_some_iff_getElem.mp hfind
      have hid : d.movimientos[i].id = id := by simpa using hp
      have heq : ids (aplicarOp d (Op.modificar id f)) = (ids d).set i id := by
        simp [aplicarOp, modificarMovimiento, hfind, guardarDatos, calcularSaldos, ids]
      have hsame : (ids d).set i id = ids d := by
        apply set_eq_self_of_getElem?
        have hgm : (ids d)[i]? = some (d.movimientos[i].id) := by
          simp [ids, List.getElem?_eq_getElem hlt]
        rw [hgm, hid]
      rw [heq, hsame]; exact hd

/-- Claim C4, counterexample: two `agregarMovimiento` calls observing the
same `Date.now()` millisecond (here both at clock value 1) assign the same
id `"1"` to both movements, so the resulting Ledger has duplicate ids. -/
theorem c4_counterexample :
    ¬ (ids (aplicarOps vacio
        [Op.agregar 1 "2024-01-01" fichaSalario,
         Op.agregar 1 "2024-01-02" fichaCafe])).Nodup := by
  decide

/-- Claim C4, amended: for every sequence of add/remove/update operations
starting from a ledger with unique ids, the resulting Ledger has unique
ids *provided* each `agregar` observes a clock value whose string form is
not already an id in the ledger at that moment — `Date.now().toString()`
ids are only collision-free when no two adds share a millisecond (and no
add collides with a pre-existing id); without that proviso uniqueness
fails. -/
theorem c4_amended (d : Datos) (ops : List Op) (hd : (ids d).Nodup)
    (hs : safeOps d ops = true) : (ids (aplicarOps d ops)).Nodup := by
  induction ops generalizing d with
  | nil => exact hd
  | cons op rest ih =>
      cases op with
      | agregar now hoy f =>
          rw [safeOps, Bool.and_eq_true] at hs
          exact ih _ (nodup_ids_agregar d now hoy f hd (of_decide_eq_true hs.1)) hs.2
      | eliminar id =>
          rw [safeOps] at hs
          exact ih _ (nodup_ids_eliminar d id hd) hs
      | modificar id f =>
          rw [safeOps] at hs
          exact ih _ (nodup_ids_modificar d id f hd) hs

theorem c4_witness :
    (ids (aplicarOps vacio
        [Op.agregar 1 "2024-01-01" fichaSalario,
         Op.agregar 2 "2024-01-02" fichaCafe,
         Op.eliminar "1",
         Op.modificar "2" fichaCafe])).Nodup :=
  c4_amended vacio _ (by decide) (by decide)

/-- Claim C5: when some movement has the given id, `modificarMovimiento`
replaces exactly the first matching record — the draft's field values
replace the old ones wholesale while the original id is kept — and leaves
every other position unchanged (same length); when no movement has the id,
the ledger is returned unchanged, with no save and no error. -/
theorem c5_modificar (d : Datos) (id : String) (f : Ficha) :
    ((∀ m ∈ d.movimientos, m.id ≠ id) → modificarMovimiento d id f = (d, none)) ∧
    (∀ i, d.movimientos.findIdx? (fun m => m.id = id) = some i →
       (modificarMovimiento d id f).1.movimientos.length = d.movimientos.length ∧
       (modificarMovimiento d id f).1.movimientos[i]? =
         some { id := id, fecha := f.fecha, asunto := f.asunto,
                tipo := f.tipo, cantidad := f.cantidad } ∧
       (∀ j, j ≠ i →
         (modificarMovimiento d id f).1.movimientos[j]? = d.movimientos[j]?)) := by
  constructor
  · intro h
    have hnone : d.movimientos.findIdx? (fun m => m.id = id) = none :=
      List.findIdx?_eq_none_iff.mpr (fun x hx => by simpa using h x hx)
    simp [modificarMovimiento, hnone]
  · intro i hi
    obtain ⟨hlt, -, -⟩ := List.findIdx?_eq_some_iff_getElem.mp hi
    have hms : (modificarMovimiento d id f).1.movimientos =
        d.movimientos.set i
          { id := id, fecha := f.fecha, asunto := f.asunto,
            tipo := f.tipo, cantidad := f.cantidad } := by
      simp [modificarMovimiento, hi, guardarDatos, calcularSaldos]
    refine ⟨by rw [hms]; exact List.length_set .., ?_, ?_⟩
    · rw [hms]
      exact List.getElem?_set_self (by simpa using hlt)
    · intro j hj
      rw [hms]
      exact List.getElem?_set_ne (fun h => hj h.symm)

theorem c5_witness :
    modificarMovimiento ejemploDatos "3" fichaCafe = (ejemploDatos, none) ∧
    (modificarMovimiento ejemploDatos "2" fichaSalario).1.movimientos[1]? =
      some { id := "2", fecha := fichaSalario.fecha, asunto := fichaSalario.asunto,
             tipo := fichaSalario.tipo, cantidad := fichaSalario.cantidad } ∧
    (modificarMovimiento ejemploDatos "2" fichaSalario).1.movimientos[0]? =
      ejemploDatos.movimientos[0]? :=
  ⟨(c5_modificar ejemploDatos "3" fichaCafe).1 (by decide),
   ((c5_modificar ejemploDatos "2" fichaSalario).2 1 (by decide)).2.1,
   (((c5_modificar ejemploDatos "2" fichaSalario).2 1 (by decide)).2.2 0 (by decide))⟩

/-- Claim C6: removing an id that is absent from the store is a no-op and
not an error — when the stored balances are the ones recomputed from the
movement list (as they are after every store operation), the ledger is
returned exactly unchanged — and a second `eliminarMovimiento` with the
same id is always a no-op. -/
theorem c6_eliminar (d : Datos) (id : String) :
    ((∀ m ∈ d.movimientos, m.id ≠ id) →
       d.saldos = calcularSaldosLista d.movimientos →
       (eliminarMovimiento d id).1 = d) ∧
    (eliminarMovimiento (eliminarMovimiento d id).1 id).1 = (eliminarMovimiento d id).1 := by
  constructor
  · intro h hcons
    have hf : d.movimientos.filter (fun m => m.id ≠ id) = d.movimientos :=
      List.filter_eq_self.mpr (fun a ha => by simpa using h a ha)
    show Datos.mk (d.movimientos.filter (fun m => m.id ≠ id))
        (calcularSaldosLista (d.movimientos.filter (fun m => m.id ≠ id))) = d
    rw [hf, ← hcons]
  · have hff : (d.movimientos.filter (fun m => m.id ≠ id)).filter (fun m => m.id ≠ id) =
        d.movimientos.filter (fun m => m.id ≠ id) :=
      List.filter_eq_self.mpr (fun a ha => (List.mem_filter.mp ha).2)
    show Datos.mk ((d.movimientos.filter (fun m => m.id ≠ id)).filter (fun m => m.id ≠ id))
        (calcularSaldosLista ((d.movimientos.filter (fun m => m.id ≠ id)).filter (fun m => m.id ≠ id))) =
      Datos.mk (d.movimientos.filter (fun m => m.id ≠ id))
        (calcularSaldosLista (d.movimientos.filter (fun m => m.id ≠ id)))
    rw [hff]

theorem c6_witness :
    (eliminarMovimiento ejemploDatos "9").1 = ejemploDatos ∧
    (eliminarMovimiento (eliminarMovimiento ejemploDatos "9").1 "9").1 =
      (eliminarMovimiento ejemploDatos "9").1 :=
  ⟨(c6_eliminar ejemploDatos "9").1 (by decide) saldos_ejemplo.symm,
   (c6_eliminar ejemploDatos "9").2⟩

/-- Claim C8: exporting the whole Ledger and importing the resulting text
succeeds and yields that same Ledger, both in memory and persisted (the
hypothesis — balances consistent with the movement list — holds of every
state the store produces, since every mutation ends in `calcularSaldos`). -/
theorem c8_round_trip (s : Store) (d : Datos)
    (h : d.saldos = calcularSaldosLista d.movimientos) :
    importarDatos s (exportarDatos (JsonDoc.datos d)) =
      ({ datos := JsonDoc.datos d, storage := some (stringifyDatos d) }, true) := by
  have hc : calcularSaldos d = d := by
    rw [calcularSaldos, ← h]
  show (({ datos := JsonDoc.datos (calcularSaldos d), storage := some (stringifyDatos d) } : Store),
      true) =
    (({ datos := JsonDoc.datos d, storage := some (stringifyDatos d) } : Store), true)
  rw [hc]

theorem c8_witness :
    importarDatos { datos := JsonDoc.datos vacio, storage := none }
        (exportarDatos (JsonDoc.datos ejemploDatos)) =
      ({ datos := JsonDoc.datos ejemploDatos, storage := some (stringifyDatos ejemploDatos) }, true) :=
  c8_round_trip { datos := JsonDoc.datos vacio, storage := none } ejemploDatos saldos_ejemplo.symm

/-- Claim C9: `aplicarFiltros` returns exactly the movements meeting every
supplied bound (ranges inclusive on both ends, omitted bounds
unconstrained), and the view it renders keeps the stored, unfiltered
balances; filtering by kind CASH on the worked example yields exactly the
coffee record with the unfiltered balances. -/
theorem c9_filtrado :
    (∀ (fl : Filtros) (ms : List Movimiento),
       aplicarFiltros fl ms = ms.filter (fun m => cumpleFiltros fl m)) ∧
    (∀ (fl : Filtros) (d : Datos), (vistaFiltrada fl d).saldos = d.saldos) ∧
    vistaFiltrada
        { fechaDesde := none, fechaHasta := none, cantidadMin := none,
          cantidadMax := none, tipo := some "CASH" } ejemploDatos =
      { movimientos := [ejemploCafe], saldos := ejemploDatos.saldos } := by
  refine ⟨fun fl ms => ?_, fun fl d => rfl, rfl⟩
  rcases fl with ⟨fd, fh, cmin, cmax, tp⟩
  cases fd <;> cases fh <;> cases cmin <;> cases cmax <;> cases tp <;>
    simp [aplicarFiltros, cumpleFiltros, List.filter_filter,
      Bool.and_assoc, Bool.and_comm, Bool.and_left_comm]

/-- The id `"7"` occurs twice in this store. -/
def movSieteA : Movimiento :=
  { id := "7", fecha := "2024-02-01", asunto := "a", tipo := "CASH", cantidad := 1 }

/-- A second movement sharing id `"7"`. -/
def movSieteB : Movimiento :=
  { id := "7", fecha := "2024-02-03", asunto := "c", tipo := "BANCO", cantidad := 3 }

/-- The movement that survives deleting id `"7"`. -/
def movOcho : Movimiento :=
  { id := "8", fecha := "2024-02-02", asunto := "b", tipo := "CASH", cantidad := 2 }

/-- A ledger holding two movements with the same id `"7"`. -/
def duplicados : Datos :=
  { movimientos := [movSieteA, movOcho, movSieteB]
    saldos := { banco := 0, cash := 0, total := 0 } }

/-- Claim C10: one `eliminarMovimiento(id)` call filters out *every*
movement whose id matches, not just the first: on a store holding two
movements with id `"7"`, deleting `"7"` removes both. -/
theorem c10_eliminar_filtra_todos :
    (∀ (d : Datos) (id : String),
       (eliminarMovimiento d id).1.movimientos =
         d.movimientos.filter (fun m => m.id ≠ id)) ∧
    (eliminarMovimiento duplicados "7").1.movimientos = [movOcho] := by
  exact ⟨fun d id => rfl, by decide⟩
